import Mathlib

/-!
Verification of the ReactQuill adapter component (src/component.tsx): a shallow
embedding of its data model, lifecycle methods and change handlers, together
with theorems about the reconciliation logic.

Modelling conventions:
* JavaScript objects compared with lodash `isEqual` become Lean structures with
  derived `DecidableEq`; deep equality is structural equality.
* Object reference identity (needed for the `===` check against
  `lastDeltaChangeSet`) is modelled by an identity token `oid` carried by each
  `Delta`; `oid` stands for the object's identity and is not an enumerable
  property, so deep equality ignores it (deep comparison of two deltas only
  ever happens through their `ops`, mirroring `isEqualValue`).
* Functions passed as callback props are compared by lodash with reference
  equality; they are modelled as identity tokens (`Option Nat`).
* Exceptions (`throw new Error`) become `Except String`.
* Calls into the external Quill widget and the external `onChange`-style
  callbacks are recorded as an `Effect` trace.
* React semantics used by the component: `setState` inside a lifecycle method
  is asynchronous (`this.state` is unchanged for the rest of the call) and
  triggers a further shouldComponentUpdate/render/componentDidUpdate pass;
  `this.props` is replaced before `componentDidUpdate` runs; `defaultProps`
  (`theme`, `modules`, `readOnly`) are merged before any method sees props, so
  those three fields are total in the `Props` model.
-/

namespace ReactQuill

/-- A single typed edit operation of a structured document value.
Opaque to the component beyond deep equality. -/
structure Op where
  insert : String
deriving DecidableEq, Repr

/-- A Quill Delta: an object exposing an `ops` sequence. `oid` models the
JavaScript object identity (used for `===`), not document content. -/
structure Delta where
  oid : Nat
  ops : List Op
deriving DecidableEq, Repr

/-- The `Value` union accepted by the component: an HTML string, a Delta, or a
nullish value (`null`/`undefined` supplied for a present prop key). -/
inductive Val where
  | null : Val
  | str : String → Val
  | delta : Delta → Val
deriving DecidableEq, Repr

/-- The `ops` sequence of a value, when it exposes one. -/
def Val.opsOf : Val → Option (List Op)
  | .delta d => some d.ops
  | _ => none

/-- A present selection range (`RangeStatic`). -/
structure RangeStatic where
  index : Nat
  length : Nat
deriving DecidableEq, Repr

/-- `Range`: a selection is either absent (`none`, i.e. `null`) or a range. -/
abbrev Range := Option RangeStatic

/-- Quill event sources. -/
inductive Sources where
  | user : Sources
  | api : Sources
  | silent : Sources
deriving DecidableEq, Repr

/-- The `modules` prop. `toolbarFirstType` models the truthiness of
`modules?.toolbar?.[0]?.type` checked by `validateProps`; `data` stands for
the rest of the object, distinguished by deep equality. -/
structure Modules where
  toolbarFirstType : Bool
  data : Nat
deriving DecidableEq, Repr

/-- The single React element optionally supplied as `children`. `tag` is its
element type (the `validateProps` textarea check reads it); `data` stands for
the rest of the element, distinguished by deep equality. -/
structure ChildVal where
  tag : String
  data : Nat
deriving DecidableEq, Repr

/-- The component's props after React merged `defaultProps`
(`theme := "snow"`, `modules := \x7b\x7d`, `readOnly := false`), so those three
are total. `value?`/`defaultValue?` are `none` when the prop key is absent,
`some .null` when the key is present with a nullish value. Callback props are
reference-compared by lodash, hence identity tokens. The three `has…Prop`
flags model the presence of the removed `toolbar`/`styles`/`pollInterval`
keys rejected by `validateProps`. -/
structure Props where
  modules : Modules
  formats : Option (List String)
  bounds : Option String
  theme : String
  children : Option ChildVal
  id : Option String
  className : Option String
  style : Option (List (String × String))
  readOnly : Bool
  placeholder : Option String
  tabIndex : Option Nat
  onChange : Option Nat
  onChangeSelection : Option Nat
  onFocus : Option Nat
  onBlur : Option Nat
  onKeyPress : Option Nat
  onKeyDown : Option Nat
  onKeyUp : Option Nat
  value? : Option Val
  defaultValue? : Option Val
  scrollingContainer : Option String
  preserveWhitespace : Bool
  hasToolbarProp : Bool
  hasStylesProp : Bool
  hasPollIntervalProp : Bool
deriving DecidableEq, Repr

/-- `ReactQuillState`: generation counter, tracked value, tracked selection. -/
structure RQState where
  generation : Nat
  value : Val
  selection : Range
deriving DecidableEq, Repr

/-- Model of the external Quill widget instance (the spec's external
collaborator, §6): document contents, current selection, enabled flag. -/
structure EditorInst where
  contents : Delta
  selection : Range
  enabled : Bool
deriving DecidableEq, Repr

/-- The React ref to the editing-area element: `found` is whether
`ReactDOM.findDOMNode` resolves to a node, `isTextNode` whether that node has
`nodeType === 3`. -/
structure AreaNode where
  found : Bool
  isTextNode : Bool
deriving DecidableEq, Repr

/-- The full instance state of the `ReactQuill` component class:
props, state, the optional editor field, the feedback-loop guard token, the
regeneration snapshot, and the editing-area ref set by `render`. -/
structure RQ where
  props : Props
  state : RQState
  editor : Option EditorInst
  lastDeltaChangeSet : Option Delta
  regenerationSnapshot : Option (Delta × Range)
  editingArea : Option AreaNode
deriving DecidableEq, Repr

/-- Observable calls into the external widget instance and the external
callback props. -/
inductive Effect where
  | createdEditor : Effect
  | destroyedEditor : Effect
  | setContentsCall : Val → Effect
  | quillSetContents : Delta → Effect
  | quillSetSelection : RangeStatic → Effect
  | quillSetSelectionNull : Effect
  | quillFocus : Effect
  | setReadOnlyCall : Bool → Effect
  | callOnChange : Nat → String → Delta → Sources → Effect
  | callOnChangeSelection : Nat → Range → Sources → Effect
  | callOnFocus : Nat → Range → Sources → Effect
  | callOnBlur : Nat → Range → Sources → Effect
deriving DecidableEq, Repr

/-- JavaScript nullish coalescing `v ?? ''` as applied to an optional `Value`
prop: an absent key or a present nullish value both give `''`. -/
def coalesce : Option Val → Val
  | none => .str ""
  | some .null => .str ""
  | some v => v

/-- `isDelta` (component.tsx line 363): `value && value.ops` — true exactly
for a Delta-shaped value (a string or nullish value has no `ops`). -/
def isDelta : Val → Bool
  | .delta _ => true
  | _ => false

/-- lodash `isEqual` on two members of the `Value` union, as reachable from
`isEqualValue`'s else branch: deep structural comparison. Two deltas compare
by their `ops` (their only enumerable property; `oid` is identity, not data). -/
def deepEqVal : Val → Val → Bool
  | .null, .null => true
  | .str s, .str t => s == t
  | .delta d, .delta e => d.ops == e.ops
  | _, _ => false

/-- `isEqualValue` (component.tsx lines 370–376): if both values are deltas,
compare their `ops` deeply, otherwise compare the values deeply. -/
def isEqualValue (value nextValue : Val) : Bool :=
  if isDelta value && isDelta nextValue then
    value.opsOf == nextValue.opsOf
  else
    deepEqVal value nextValue

/-- `isControlled` (component.tsx line 316): `'value' in this.props`. -/
def isControlled (p : Props) : Bool :=
  p.value?.isSome

/-- `React.Children.count(props.children)` under the typed `children` prop
(a single optional element). -/
def childCount (p : Props) : Nat :=
  match p.children with
  | some _ => 1
  | none => 0

/-- `validateProps` (component.tsx lines 161–211), checks in source order:
deprecated `toolbar` prop, `modules.toolbar[0].type`, `formats` (always a
string array under the typed model, so that check passes), deprecated
`styles`, deprecated `pollInterval`, more than one child, `<textarea>` child,
and finally the feedback-loop guard: the `value` prop being reference-equal
(`===`, here: same `oid`) to `lastDeltaChangeSet`. -/
def validateProps (lastDeltaChangeSet : Option Delta) (p : Props) :
    Except String Unit :=
  if p.hasToolbarProp then
    .error "The toolbar prop has been deprecated"
  else if p.modules.toolbarFirstType then
    .error "React Quill will not create a custom toolbar for you anymore"
  else if p.hasStylesProp then
    .error "The styles prop has been deprecated"
  else if p.hasPollIntervalProp then
    .error "The pollInterval property does not have any effect anymore"
  else if childCount p > 1 then
    .error "The Quill editing area can only be composed of a single React element"
  else if (match p.children with
           | some child => child.tag == "textarea"
           | none => false) then
    .error "Quill does not support editing on a textarea"
  else if (match lastDeltaChangeSet, p.value? with
           | some last, some (.delta v) => v.oid == last.oid
           | _, _ => false) then
    .error "You are passing the delta object from the onChange event back as value"
  else
    .ok ()

/-- `!isEqual(a[prop], b[prop])` disjoined over the `dirtyProps` list
(component.tsx lines 92–98): `modules`, `formats`, `bounds`, `theme`,
`children`. -/
def dirtyPropsDiffer (a b : Props) : Bool :=
  a.modules != b.modules || a.formats != b.formats || a.bounds != b.bounds ||
  a.theme != b.theme || a.children != b.children

/-- `!isEqual(a[prop], b[prop])` disjoined over the `cleanProps` list
(component.tsx lines 104–118): `id`, `className`, `style`, `readOnly`,
`placeholder`, `tabIndex`, and the seven callback props. -/
def cleanPropsDiffer (a b : Props) : Bool :=
  a.id != b.id || a.className != b.className || a.style != b.style ||
  a.readOnly != b.readOnly || a.placeholder != b.placeholder ||
  a.tabIndex != b.tabIndex || a.onChange != b.onChange ||
  a.onChangeSelection != b.onChangeSelection || a.onFocus != b.onFocus ||
  a.onBlur != b.onBlur || a.onKeyPress != b.onKeyPress ||
  a.onKeyDown != b.onKeyDown || a.onKeyUp != b.onKeyUp

/-- The boolean decision of `shouldComponentUpdate` (component.tsx lines
217–224), after `validateProps` has passed: true if the generation changed,
otherwise true iff some clean or dirty prop differs by deep equality. -/
def updateDecision (curState nextState : RQState) (curProps nextProps : Props) :
    Bool :=
  if curState.generation != nextState.generation then true
  else cleanPropsDiffer nextProps curProps || dirtyPropsDiffer nextProps curProps

/-- `shouldComponentUpdate` (component.tsx lines 213–225): validate the next
props, then decide. -/
def shouldComponentUpdate (c : RQ) (nextProps : Props) (nextState : RQState) :
    Except String Bool :=
  match validateProps c.lastDeltaChangeSet nextProps with
  | .error m => .error m
  | .ok _ => .ok (updateDecision c.state nextState c.props nextProps)

/-- `shouldComponentRegenerate` (component.tsx lines 227–232): some dirty
prop differs between `thisProps` and the `nextProps` argument. -/
def shouldComponentRegenerate (thisProps nextProps : Props) : Bool :=
  dirtyPropsDiffer nextProps thisProps

/-- `getEditingArea` (component.tsx lines 338–350): fail on a missing ref, a
null `findDOMNode` result, or a text node, in that order. -/
def getEditingArea (area : Option AreaNode) : Except String Unit :=
  match area with
  | none => .error "Instantiating on missing editing area"
  | some a =>
    if !a.found then .error "Cannot find element for editing area"
    else if a.isTextNode then .error "Editing area cannot be a text node"
    else .ok ()

/-- `getEditorConfig` (component.tsx lines 320–331). -/
structure QuillOptions where
  bounds : Option String
  formats : Option (List String)
  modules : Modules
  placeholder : Option String
  readOnly : Bool
  scrollingContainer : Option String
  tabIndex : Option Nat
  theme : String
deriving DecidableEq, Repr

/-- `getEditorConfig` (component.tsx lines 320–331): project the Quill
options out of the props. -/
def getEditorConfig (p : Props) : QuillOptions :=
  { bounds := p.bounds
    formats := p.formats
    modules := p.modules
    placeholder := p.placeholder
    readOnly := p.readOnly
    scrollingContainer := p.scrollingContainer
    tabIndex := p.tabIndex
    theme := p.theme }

/-- Modelled from the spec: the mixin's `createEditor` (src/mixin is not under
src/) wraps the external widget's `create(container, config) → instance`
(spec §6), yielding a fresh live instance with an empty document, no
selection, and enabled iff not read-only. -/
def createEditor (config : QuillOptions) : EditorInst :=
  { contents := { oid := 0, ops := [] }
    selection := none
    enabled := !config.readOnly }

/-- Modelled from the spec: the widget's markup-to-document conversion used
when a string value is loaded into the instance (spec §6); opaque to the
component, fixed here as a single insert op. -/
def htmlToDelta (s : String) : Delta :=
  { oid := 0, ops := [{ insert := s }] }

/-- Modelled from the spec: the mixin's `setEditorContents` (not under src/)
— replaces the instance's full document with the incoming value: a structured
value via `setContents`, a markup string via the widget's markup conversion
(spec §4.2, §6). -/
def setEditorContents (e : EditorInst) (v : Val) : EditorInst :=
  match v with
  | .delta d => { e with contents := d }
  | .str s => { e with contents := htmlToDelta s }
  | .null => { e with contents := htmlToDelta "" }

/-- Modelled from the spec: the mixin's `setEditorReadOnly` (not under src/)
— applies the read-only flag in place via `instance.enable(!readOnly)`
(spec §4.1, §6). -/
def setEditorReadOnly (e : EditorInst) (readOnly : Bool) : EditorInst :=
  { e with enabled := !readOnly }

/-- Modelled from the spec: the mixin's `setEditorSelection` (not under src/)
— applies the given range (or null) to the instance via
`setSelection(range | null)` (spec §6). -/
def setEditorSelection (e : EditorInst) (r : Range) : EditorInst :=
  { e with selection := r }

/-- `instantiateEditor` (component.tsx lines 295–303): fail if an editor
already exists, then resolve the editing area (its failures propagate), then
create the editor from the current config. -/
def instantiateEditor (c : RQ) : Except String (RQ × List Effect) :=
  if c.editor.isSome then
    .error "Editor is already instantiated"
  else
    match getEditingArea c.editingArea with
    | .error m => .error m
    | .ok _ =>
      .ok ({ c with editor := some (createEditor (getEditorConfig c.props)) },
           [.createdEditor])

/-- `destroyEditor` (component.tsx lines 305–311): fail if no editor exists,
otherwise unhook it (the mixin's unsubscribe, folded into the destroy effect)
and delete the field. -/
def destroyEditor (c : RQ) : Except String (RQ × List Effect) :=
  match c.editor with
  | none => .error "Destroying editor before instantiation"
  | some _ => .ok ({ c with editor := none }, [.destroyedEditor])

/-- `getEditor` (component.tsx lines 333–336): fail when not instantiated. -/
def getEditor (c : RQ) : Except String EditorInst :=
  match c.editor with
  | none => .error "Accessing non-instantiated editor"
  | some e => .ok e

/-- `focus` (component.tsx lines 465–468): no-op without an editor, otherwise
call the instance's `focus()`. -/
def focus (c : RQ) : RQ × List Effect :=
  match c.editor with
  | none => (c, [])
  | some _ => (c, [.quillFocus])

/-- `blur` (component.tsx lines 470–473): no-op without an editor, otherwise
set the instance selection to null via the mixin. -/
def blur (c : RQ) : RQ × List Effect :=
  match c.editor with
  | none => (c, [])
  | some e =>
    ({ c with editor := some (setEditorSelection e none) },
     [.quillSetSelectionNull])

/-- The constructor (component.tsx lines 155–159) together with the state
initializer (lines 126–130): seed `state.value` from `value` when controlled,
else from `defaultValue`, coalescing nullish to `''`; generation 0, no
selection; no editor, no guard token, no snapshot, no ref yet. -/
def construct (p : Props) : RQ :=
  { props := p
    state :=
      { generation := 0
        selection := none
        value := coalesce (if isControlled p then p.value? else p.defaultValue?) }
    editor := none
    lastDeltaChangeSet := none
    regenerationSnapshot := none
    editingArea := none }

/-- `componentDidMount` (component.tsx lines 234–237): instantiate (after
`render` has attached the editing-area ref) and load `state.value` into the
new instance via the mixin's `setEditorContents`. -/
def componentDidMount (c : RQ) : Except String (RQ × List Effect) :=
  match instantiateEditor c with
  | .error m => .error m
  | .ok (c1, effs) =>
    match c1.editor with
    | none => .error "unreachable: instantiateEditor always sets the editor"
    | some ed =>
      .ok ({ c1 with editor := some (setEditorContents ed c1.state.value) },
           effs ++ [.setContentsCall c1.state.value])

/-- `componentDidUpdate` (component.tsx lines 243–293), translated
statement-for-statement. Key JavaScript details kept by the translation:

* the early return `if (!this.editor) return;` at the top;
* `const editor = this.editor;` captures the instance once; `destroyEditor`
  and `instantiateEditor` change the `this.editor` field but not the `editor`
  constant, so after a destroy the later branches keep talking to the stale,
  destroyed instance — modelled by `staleLive`: the constant aliases the live
  field exactly when no regeneration destroyed it in this call;
* `this.setState(\x7bgeneration: …\x7d)` is asynchronous: the new generation is
  only queued (returned as the middle component) and `this.state` keeps its
  old value for the rest of the call, so the `generation !== prevState`
  branch reads the pre-existing state;
* `this.regenerationSnapshot!` with no snapshot is a TypeError at the
  destructuring, modelled as an error;
* `'readOnly' in this.props` is always true because `defaultProps` supplies
  `readOnly`. -/
def componentDidUpdate (c : RQ) (prevProps : Props) (prevState : RQState) :
    Except String (RQ × Option Nat × List Effect) :=
  match c.editor with
  | none => .ok (c, none, [])
  | some ed =>
    let regen := shouldComponentRegenerate c.props prevProps
    let queued : Option Nat :=
      if regen then some (c.state.generation + 1) else none
    let c1 : RQ :=
      if regen then
        { c with regenerationSnapshot := some (ed.contents, ed.selection)
                 editor := none }
      else c
    let effs1 : List Effect := if regen then [.destroyedEditor] else []
    let staleLive := !regen
    let step2 : Except String (RQ × List Effect) :=
      if c.state.generation != prevState.generation then
        match c1.regenerationSnapshot with
        | none => .error "TypeError: regenerationSnapshot is undefined"
        | some (delta, sel) =>
          match instantiateEditor { c1 with regenerationSnapshot := none } with
          | .error m => .error m
          | .ok (c1b, effsInst) =>
            .ok (c1b,
                 effsInst ++ [.quillSetContents delta] ++
                 (match sel with
                  | some r => [.quillSetSelection r]
                  | none => []) ++
                 [.quillFocus])
      else .ok (c1, [])
    match step2 with
    | .error m => .error m
    | .ok (c2, effs2) =>
      let step3 : RQ × List Effect :=
        match c2.props.value? with
        | some v =>
          let nextContents := coalesce (some v)
          if isEqualValue nextContents prevState.value then (c2, [])
          else
            ((if staleLive then
                match c2.editor with
                | some e =>
                  { c2 with editor := some (setEditorContents e nextContents) }
                | none => c2
              else c2),
             [.setContentsCall nextContents])
        | none => (c2, [])
      let c3 := step3.1
      let effs3 := step3.2
      let step4 : RQ × List Effect :=
        if c3.props.readOnly != prevProps.readOnly then
          ((if staleLive then
              match c3.editor with
              | some e =>
                { c3 with editor := some (setEditorReadOnly e c3.props.readOnly) }
              | none => c3
            else c3),
           [.setReadOnlyCall c3.props.readOnly])
        else (c3, [])
      .ok (step4.1, queued, effs1 ++ effs2 ++ effs3 ++ step4.2)

/-- The React loop that flushes generation updates queued by `setState` inside
`componentDidUpdate`: apply the new state, run `shouldComponentUpdate` with
the unchanged props (it validates again; a changed generation always yields
true), render, and run `componentDidUpdate` with the old props and state;
repeat while further updates are queued. Fuel bounds the recursion; every run
examined in this development queues at most once. -/
def flushQueued : Nat → RQ → Option Nat → Except String (RQ × List Effect)
  | _, c, none => .ok (c, [])
  | 0, _, some _ => .error "fuel exhausted"
  | fuel + 1, c, some g =>
    let nextState : RQState := { c.state with generation := g }
    match shouldComponentUpdate c c.props nextState with
    | .error m => .error m
    | .ok upd =>
      if upd then
        let prevProps := c.props
        let prevState := c.state
        let cR : RQ := { c with state := nextState }
        match componentDidUpdate cR prevProps prevState with
        | .error m => .error m
        | .ok (c2, queued2, effs) =>
          match flushQueued fuel c2 queued2 with
          | .error m => .error m
          | .ok (c3, effs2) => .ok (c3, effs ++ effs2)
      else
        .ok ({ c with state := nextState }, [])

/-- One full props update delivered by the parent: `shouldComponentUpdate`
(which validates the next props and may throw), then — when it returns true —
React replaces `this.props`, re-renders, and calls `componentDidUpdate` with
the previous props and state; any generation update queued inside is then
flushed as a further state-driven pass. When `shouldComponentUpdate` returns
false, React still replaces `this.props` but skips render and
`componentDidUpdate`. -/
def receiveProps (c : RQ) (nextProps : Props) : Except String (RQ × List Effect) :=
  match shouldComponentUpdate c nextProps c.state with
  | .error m => .error m
  | .ok upd =>
    if upd then
      let prevProps := c.props
      let prevState := c.state
      let cR : RQ := { c with props := nextProps }
      match componentDidUpdate cR prevProps prevState with
      | .error m => .error m
      | .ok (c2, queued, effs) =>
        match flushQueued 4 c2 queued with
        | .error m => .error m
        | .ok (c3, effs2) => .ok (c3, effs ++ effs2)
    else
      .ok ({ c with props := nextProps }, [])

/-- The unprivileged editor view handed to the change handlers: the handlers
only call its `getContents()` and `getHTML()`. -/
structure UEditor where
  contents : Delta
  html : String
deriving DecidableEq, Repr

/-- The pull step of `onEditorChangeText` (component.tsx lines 431–433): read
the instance back in the representation kind of the tracked value —
`getContents()` when the tracked value is a Delta, `getHTML()` otherwise. -/
def computeNextContents (currentContents : Val) (editor : UEditor) : Val :=
  if isDelta currentContents then .delta editor.contents
  else .str editor.html

/-- `onEditorChangeText` (component.tsx lines 421–442): pull the next content
in the tracked value's representation kind; when it deeply differs from the
tracked value, record the raw delta as the feedback-loop guard token, store
the new value, and invoke `onChange` (when bound); otherwise do nothing. -/
def onEditorChangeText (c : RQ) (value : String) (delta : Delta)
    (source : Sources) (editor : UEditor) : RQ × List Effect :=
  let currentContents := c.state.value
  let nextContents := computeNextContents currentContents editor
  if !isEqualValue nextContents currentContents then
    ({ c with lastDeltaChangeSet := some delta
              state := { c.state with value := nextContents } },
     match c.props.onChange with
     | some tok => [.callOnChange tok value delta source]
     | none => [])
  else
    (c, [])

/-- `onEditorChangeSelection` (component.tsx lines 444–463): suppress when the
new selection deeply equals the tracked one; otherwise store it, invoke
`onChangeSelection` (when bound), then `onFocus` with the new selection on
none→some, or `onBlur` with the previous selection on some→none. -/
def onEditorChangeSelection (c : RQ) (nextSelection : Range)
    (source : Sources) : RQ × List Effect :=
  let currentSelection := c.state.selection
  let hasGainedFocus := currentSelection.isNone && nextSelection.isSome
  let hasLostFocus := currentSelection.isSome && nextSelection.isNone
  if nextSelection == currentSelection then
    (c, [])
  else
    ({ c with state := { c.state with selection := nextSelection } },
     (match c.props.onChangeSelection with
      | some tok => [.callOnChangeSelection tok nextSelection source]
      | none => []) ++
     (if hasGainedFocus then
        match c.props.onFocus with
        | some tok => [.callOnFocus tok nextSelection source]
        | none => []
      else if hasLostFocus then
        match c.props.onBlur with
        | some tok => [.callOnBlur tok currentSelection source]
        | none => []
      else []))

/-- Is an effect an `onFocus` or `onBlur` callback invocation? -/
def Effect.isFocusOrBlur : Effect → Bool
  | .callOnFocus _ _ _ => true
  | .callOnBlur _ _ _ => true
  | _ => false

/-- Is an effect a `setEditorContents` push into the instance? -/
def Effect.isSetContentsCall : Effect → Bool
  | .setContentsCall _ => true
  | _ => false

/-- Did an `Except` computation raise? -/
def isError {ε α : Type} : Except ε α → Bool
  | .error _ => true
  | .ok _ => false

/-! Concrete fixtures used to evaluate the model on specific inputs. -/

/-- A plain self-managed configuration: default theme and modules, a
`defaultValue` of `"hello"`, all four notification callbacks bound, no
removed props. -/
def demoProps : Props :=
  { modules := { toolbarFirstType := false, data := 0 }
    formats := none
    bounds := none
    theme := "snow"
    children := none
    id := none
    className := none
    style := none
    readOnly := false
    placeholder := none
    tabIndex := none
    onChange := some 1
    onChangeSelection := some 2
    onFocus := some 3
    onBlur := some 4
    onKeyPress := none
    onKeyDown := none
    onKeyUp := none
    value? := none
    defaultValue? := some (.str "hello")
    scrollingContainer := none
    preserveWhitespace := false
    hasToolbarProp := false
    hasStylesProp := false
    hasPollIntervalProp := false }

/-- A live instance holding the document `"hello"` with an active selection. -/
def demoEditor : EditorInst :=
  { contents := { oid := 5, ops := [{ insert := "hello" }] }
    selection := some { index := 1, length := 2 }
    enabled := true }

/-- A mounted component: `demoProps`, a live `demoEditor`, tracked value
`"hello"`, tracked selection present, editing-area ref resolved. -/
def demoComp : RQ :=
  { props := demoProps
    state := { generation := 0
               value := .str "hello"
               selection := some { index := 1, length := 2 } }
    editor := some demoEditor
    lastDeltaChangeSet := none
    regenerationSnapshot := none
    editingArea := some { found := true, isTextNode := false } }

/-- An unprivileged editor view after a user edit appended `" world"`. -/
def demoUE : UEditor :=
  { contents := { oid := 9, ops := [{ insert := "hello world" }] }
    html := "hello world" }

/-- The raw change payload of that edit. -/
def demoDelta : Delta :=
  { oid := 7, ops := [{ insert := " world" }] }

/-- A delta previously emitted through `onChange`, for the echo guard. -/
def echoDelta : Delta :=
  { oid := 42, ops := [{ insert := "x" }] }

/-- `demoComp` right after emitting `echoDelta` through `onChange`. -/
def echoComp : RQ :=
  { demoComp with lastDeltaChangeSet := some echoDelta }

/-- Props echoing `echoDelta` back as the `value` prop. -/
def echoProps : Props :=
  { demoProps with value? := some (.delta echoDelta) }

/-- A controlled configuration whose `value` prop is the string `"bye"`. -/
def ctrlProps : Props :=
  { demoProps with value? := some (.str "bye") }

/-- `demoComp` operating under `ctrlProps`. -/
def ctrlComp : RQ :=
  { demoComp with props := ctrlProps }

/-- `demoProps` with only the in-place-updatable `className` changed. -/
def cleanNextProps : Props :=
  { demoProps with className := some "x" }

/-- A component with no live instance but a resolved editing area. -/
def bareComp : RQ :=
  { demoComp with editor := none }

/-- A configuration supplying neither `value` nor `defaultValue`. -/
def seedlessProps : Props :=
  { demoProps with defaultValue? := none }

/-! Theorems. -/

/-- Helper: the nullish coalescing of an optional `Value` prop with `''`
never yields a nullish value. -/
theorem coalesce_ne_null (v : Option Val) : coalesce v ≠ Val.null := by
  rcases v with _ | (_ | s | d) <;> simp [coalesce]

/-- C1: the claim says a dirty-prop update snapshots the document and
selection, destroys the instance, and on the generation-changed pass creates
a new instance, restores the snapshot, clears it, and restores focus. The
code does not: `componentDidUpdate` destroys the editor in the first pass,
and the generation-changed second pass hits the hoisted
`if (!this.editor) return;` guard, so the whole update of a mounted editor
with `theme` changed from `"snow"` to `"bubble"` yields exactly one destroy
effect — no create, no restore of contents or selection, no focus — leaves
the component with no editor, generation 1, and the snapshot never cleared. -/
theorem c1_regeneration_restore_unreachable :
    (receiveProps demoComp { demoProps with theme := "bubble" }).toOption.map
        (fun r => (r.2, r.1.editor, r.1.regenerationSnapshot, r.1.state.generation)) =
      some ([Effect.destroyedEditor], none,
            some ({ oid := 5, ops := [{ insert := "hello" }] },
                  some { index := 1, length := 2 }),
            1) := by
  rfl

/-- C2: on a raw text-change notification the next content is pulled in the
representation kind of the tracked value (`getContents()` when the tracked
value is a Delta, `getHTML()` otherwise); when it equals the tracked value by
`isEqualValue` the notification is suppressed entirely (no state write, no
callback); otherwise the raw delta becomes the feedback-loop guard token, the
new content becomes the tracked value, and `onChange` is invoked. -/
theorem c2_change_notification_filter (c : RQ) (value : String) (delta : Delta)
    (src : Sources) (e : UEditor) (tok : Nat)
    (hcb : c.props.onChange = some tok) :
    (computeNextContents c.state.value e =
       (if isDelta c.state.value then Val.delta e.contents else Val.str e.html)) ∧
    (isEqualValue (computeNextContents c.state.value e) c.state.value = true →
       onEditorChangeText c value delta src e = (c, [])) ∧
    (isEqualValue (computeNextContents c.state.value e) c.state.value = false →
       onEditorChangeText c value delta src e =
         ({ c with lastDeltaChangeSet := some delta
                   state := { c.state with value := computeNextContents c.state.value e } },
          [.callOnChange tok value delta src])) := by
  refine ⟨rfl, ?_, ?_⟩ <;> intro h <;> simp [onEditorChangeText, h, hcb]

/-- Witness for C2: on `demoComp` (tracked value `"hello"`) a user edit with
HTML `"hello world"` is not suppressed: the guard token, tracked value and
`onChange` call all happen. -/
theorem c2_change_notification_filter_witness :
    demoComp.props.onChange = some 1 ∧
    (computeNextContents demoComp.state.value demoUE =
       (if isDelta demoComp.state.value then Val.delta demoUE.contents
        else Val.str demoUE.html)) ∧
    (isEqualValue (computeNextContents demoComp.state.value demoUE)
        demoComp.state.value = true →
       onEditorChangeText demoComp "hello world" demoDelta .user demoUE =
         (demoComp, [])) ∧
    (isEqualValue (computeNextContents demoComp.state.value demoUE)
        demoComp.state.value = false →
       onEditorChangeText demoComp "hello world" demoDelta .user demoUE =
         ({ demoComp with
              lastDeltaChangeSet := some demoDelta
              state := { demoComp.state with
                           value := computeNextContents demoComp.state.value demoUE } },
          [.callOnChange 1 "hello world" demoDelta .user])) :=
  ⟨rfl,
   (c2_change_notification_filter demoComp "hello world" demoDelta .user demoUE 1 rfl).1,
   (c2_change_notification_filter demoComp "hello world" demoDelta .user demoUE 1 rfl).2.1,
   (c2_change_notification_filter demoComp "hello world" demoDelta .user demoUE 1 rfl).2.2⟩

/-- C3: a raw selection notification deeply equal to the tracked selection is
suppressed entirely; otherwise the tracked selection is updated,
`onChangeSelection` is invoked, then `onFocus` fires with the new selection
exactly on a none→some transition and `onBlur` fires with the previous
selection exactly on a some→none transition; at most one of the two fires. -/
theorem c3_selection_notification (c : RQ) (next : Range) (src : Sources)
    (tcs tf tb : Nat)
    (h1 : c.props.onChangeSelection = some tcs)
    (h2 : c.props.onFocus = some tf)
    (h3 : c.props.onBlur = some tb) :
    (next = c.state.selection → onEditorChangeSelection c next src = (c, [])) ∧
    (next ≠ c.state.selection →
       onEditorChangeSelection c next src =
         ({ c with state := { c.state with selection := next } },
          [Effect.callOnChangeSelection tcs next src] ++
          (if c.state.selection.isNone ∧ next.isSome then
             [Effect.callOnFocus tf next src]
           else if c.state.selection.isSome ∧ next.isNone then
             [Effect.callOnBlur tb c.state.selection src]
           else []))) ∧
    (onEditorChangeSelection c next src).2.countP Effect.isFocusOrBlur ≤ 1 := by
  refine ⟨?_, ?_, ?_⟩
  · intro h
    simp [onEditorChangeSelection, h]
  · intro h
    have hne : (next == c.state.selection) = false := by simp [h]
    simp only [onEditorChangeSelection, hne, Bool.false_eq_true, if_false, h1, h2, h3]
    rcases hcur : c.state.selection with _ | r <;> rcases hnx : next with _ | r2 <;>
      simp [Option.isNone, Option.isSome]
  · by_cases h : next = c.state.selection
    · simp [onEditorChangeSelection, h]
    · have hne : (next == c.state.selection) = false := by simp [h]
      simp only [onEditorChangeSelection, hne, Bool.false_eq_true, if_false]
      rcases hcur : c.state.selection with _ | r <;> rcases hnx : next with _ | r2 <;>
        simp [Option.isNone, Option.isSome, List.countP, List.countP.go,
              Effect.isFocusOrBlur, h1, h2, h3]

/-- Witness for C3: on `demoComp` (tracked selection present) a `null`
selection notification fires `onChangeSelection` and then `onBlur` with the
previous selection. -/
theorem c3_selection_notification_witness :
    demoComp.props.onChangeSelection = some 2 ∧
    demoComp.props.onFocus = some 3 ∧
    demoComp.props.onBlur = some 4 ∧
    ((none = demoComp.state.selection →
        onEditorChangeSelection demoComp none .user = (demoComp, [])) ∧
     ((none : Range) ≠ demoComp.state.selection →
        onEditorChangeSelection demoComp none .user =
          ({ demoComp with state := { demoComp.state with selection := none } },
           [Effect.callOnChangeSelection 2 none .user] ++
           (if demoComp.state.selection.isNone ∧ (none : Range).isSome then
              [Effect.callOnFocus 3 none .user]
            else if demoComp.state.selection.isSome ∧ (none : Range).isNone then
              [Effect.callOnBlur 4 demoComp.state.selection .user]
            else []))) ∧
     (onEditorChangeSelection demoComp none .user).2.countP Effect.isFocusOrBlur ≤ 1) :=
  ⟨rfl, rfl, rfl, c3_selection_notification demoComp none .user 2 3 4 rfl rfl rfl⟩

/-- C4: `isEqualValue` holds iff both values are Delta-shaped with deeply
equal `ops`, or neither is Delta-shaped and they are deeply equal as opaque
values; in particular the structured value with ops `[insert "a"]` is unequal
to the HTML string `"a"`. -/
theorem c4_value_equality :
    (∀ v w : Val, isEqualValue v w = true ↔
       ((∃ d e, v = .delta d ∧ w = .delta e ∧ d.ops = e.ops) ∨
        (isDelta v = false ∧ isDelta w = false ∧ deepEqVal v w = true))) ∧
    isEqualValue (.delta { oid := 0, ops := [{ insert := "a" }] }) (.str "a") = false := by
  constructor
  · intro v w
    cases v <;> cases w <;> simp [isEqualValue, isDelta, deepEqVal, Val.opsOf]
  · rfl

/-- Witness for C4: two distinct Delta objects with the same `ops` are equal;
a Delta and a string are not. -/
theorem c4_value_equality_witness :
    (isEqualValue (.delta { oid := 3, ops := [{ insert := "a" }] })
        (.delta { oid := 8, ops := [{ insert := "a" }] }) = true ↔
       ((∃ d e, Val.delta { oid := 3, ops := [{ insert := "a" }] } = .delta d ∧
            Val.delta { oid := 8, ops := [{ insert := "a" }] } = .delta e ∧
            d.ops = e.ops) ∨
        (isDelta (.delta { oid := 3, ops := [{ insert := "a" }] }) = false ∧
         isDelta (.delta { oid := 8, ops := [{ insert := "a" }] }) = false ∧
         deepEqVal (.delta { oid := 3, ops := [{ insert := "a" }] })
           (.delta { oid := 8, ops := [{ insert := "a" }] }) = true))) ∧
    isEqualValue (.delta { oid := 0, ops := [{ insert := "a" }] }) (.str "a") = false :=
  ⟨c4_value_equality.1 _ _, c4_value_equality.2⟩

/-- C5: when the `value` prop is reference-identical (same object identity)
to the most recently emitted change payload, prop validation raises the
delta-echo usage error, so the whole update pass aborts before any instance
mutation. -/
theorem c5_delta_echo_guard (c : RQ) (p : Props) (d dv : Delta)
    (hlast : c.lastDeltaChangeSet = some d)
    (hval : p.value? = some (.delta dv))
    (hoid : dv.oid = d.oid)
    (h1 : p.hasToolbarProp = false)
    (h2 : p.modules.toolbarFirstType = false)
    (h3 : p.hasStylesProp = false)
    (h4 : p.hasPollIntervalProp = false)
    (h5 : (match p.children with
           | some child => child.tag == "textarea"
           | none => false) = false) :
    receiveProps c p =
      .error "You are passing the delta object from the onChange event back as value" := by
  have hvp : validateProps c.lastDeltaChangeSet p =
      .error "You are passing the delta object from the onChange event back as value" := by
    unfold validateProps
    rcases hch : p.children with _ | child <;>
      simp [hlast, hval, hoid, h1, h2, h3, h4, hch, childCount] <;>
      simp [hch] at h5 <;> simp [h5]
  unfold receiveProps shouldComponentUpdate
  rw [hvp]

/-- Witness for C5: `echoComp` emitted `echoDelta`; passing it back as the
`value` prop makes the update error out. -/
theorem c5_delta_echo_guard_witness :
    echoComp.lastDeltaChangeSet = some echoDelta ∧
    echoProps.value? = some (.delta echoDelta) ∧
    receiveProps echoComp echoProps =
      .error "You are passing the delta object from the onChange event back as value" :=
  ⟨rfl, rfl,
   c5_delta_echo_guard echoComp echoProps echoDelta echoDelta
     rfl rfl rfl rfl rfl rfl rfl rfl⟩

/-- C6: on a quiescent post-commit pass (live instance, no dirty-prop change,
unchanged generation, unchanged read-only flag), in controlled mode the
external value is pushed into the instance iff it differs from the tracked
value by `isEqualValue` — a deeply equal value leaves the component and the
instance exactly as they were; and in self-managed mode (`value` prop absent)
no post-commit pass ever produces a `setEditorContents` push. -/
theorem c6_controlled_push (c : RQ) (prevProps : Props) (prevState : RQState) :
    (∀ ed v, c.editor = some ed →
       shouldComponentRegenerate c.props prevProps = false →
       c.state.generation = prevState.generation →
       c.props.readOnly = prevProps.readOnly →
       c.props.value? = some v →
       ((isEqualValue (coalesce (some v)) prevState.value = true →
           componentDidUpdate c prevProps prevState = .ok (c, none, [])) ∧
        (isEqualValue (coalesce (some v)) prevState.value = false →
           componentDidUpdate c prevProps prevState =
             .ok ({ c with editor := some (setEditorContents ed (coalesce (some v))) },
                  none, [.setContentsCall (coalesce (some v))])))) ∧
    (∀ res, c.props.value? = none →
       componentDidUpdate c prevProps prevState = .ok res →
       res.2.2.countP Effect.isSetContentsCall = 0) := by
  constructor
  · intro ed v hed hregen hgen hro hv
    constructor <;> intro heq <;>
      simp [componentDidUpdate, hed, hregen, hgen, hro, hv, heq, bne]
  · intro res hv h
    rcases hc : c.editor with _ | ed
    · simp [componentDidUpdate, hc] at h
      subst h
      simp
    · by_cases hr : shouldComponentRegenerate c.props prevProps = true <;>
      by_cases hg : (c.state.generation != prevState.generation) = true
      · rcases hga : getEditingArea c.editingArea with m | u <;>
          by_cases hro : (c.props.readOnly != prevProps.readOnly) = true <;>
          simp_all [componentDidUpdate, instantiateEditor] <;>
          (try subst h) <;>
          (try rcases hsel : ed.selection with _ | r) <;>
          simp_all [List.countP, List.countP.go, Effect.isSetContentsCall]
      · by_cases hro : (c.props.readOnly != prevProps.readOnly) = true <;>
          simp_all [componentDidUpdate] <;>
          (try subst h) <;>
          simp_all [List.countP, List.countP.go, Effect.isSetContentsCall]
      · rcases hs : c.regenerationSnapshot with _ | ⟨delta, sel⟩ <;>
          simp_all [componentDidUpdate, instantiateEditor]
      · by_cases hro : (c.props.readOnly != prevProps.readOnly) = true <;>
          simp_all [componentDidUpdate] <;>
          (try subst h) <;>
          simp_all [List.countP, List.countP.go, Effect.isSetContentsCall]

/-- Witness for C6: pushing the differing value `"bye"` into `ctrlComp`
mutates the instance once; the self-managed `demoComp` pass pushes nothing. -/
theorem c6_controlled_push_witness :
    ctrlComp.editor = some demoEditor ∧
    ctrlComp.props.value? = some (.str "bye") ∧
    componentDidUpdate ctrlComp ctrlProps ctrlComp.state =
      .ok ({ ctrlComp with editor := some (setEditorContents demoEditor (Val.str "bye")) },
           none, [.setContentsCall (Val.str "bye")]) ∧
    demoComp.props.value? = none ∧
    (componentDidUpdate demoComp demoProps demoComp.state = .ok (demoComp, none, []) ∧
     ([] : List Effect).countP Effect.isSetContentsCall = 0) :=
  ⟨rfl, rfl,
   ((c6_controlled_push ctrlComp ctrlProps ctrlComp.state).1 demoEditor (Val.str "bye")
      rfl rfl rfl rfl rfl).2 (by rfl),
   rfl,
   by rfl,
   by
     have h := (c6_controlled_push demoComp demoProps demoComp.state).2
       (demoComp, none, []) rfl (by rfl)
     simpa using h⟩

/-- C7: after validation passes, the pre-update decision is true iff the
generation changed between the previous and next state, or some dirty or
clean prop differs by deep equality; a change confined to keys outside both
sets with unchanged generation therefore decides false. -/
theorem c7_update_decision (c : RQ) (nextProps : Props) (nextState : RQState)
    (b : Bool)
    (h : shouldComponentUpdate c nextProps nextState = .ok b) :
    b = true ↔
      (c.state.generation ≠ nextState.generation ∨
       dirtyPropsDiffer nextProps c.props = true ∨
       cleanPropsDiffer nextProps c.props = true) := by
  unfold shouldComponentUpdate at h
  rcases hv : validateProps c.lastDeltaChangeSet nextProps with m | u
  · rw [hv] at h; cases h
  · rw [hv] at h
    simp only [Except.ok.injEq] at h
    subst h
    unfold updateDecision
    by_cases hg : c.state.generation = nextState.generation
    · simp [hg]
      tauto
    · simp [hg, bne]

/-- Witness for C7: changing only `className` (a clean prop) decides true. -/
theorem c7_update_decision_witness :
    shouldComponentUpdate demoComp cleanNextProps demoComp.state = .ok true ∧
    (true = true ↔
      (demoComp.state.generation ≠ demoComp.state.generation ∨
       dirtyPropsDiffer cleanNextProps demoComp.props = true ∨
       cleanPropsDiffer cleanNextProps demoComp.props = true)) :=
  ⟨by rfl, c7_update_decision demoComp cleanNextProps demoComp.state true (by rfl)⟩

/-- C8: the claim says a regeneration-triggering update performs exactly one
destroy followed by exactly one create, with the generation incremented by 1.
The code increments the generation and destroys, but never creates: on a
mounted editor with only `modules` changed, the full update flow ends with
generation 1, one destroy effect and zero create effects. -/
theorem c8_generation_destroy_create :
    (receiveProps demoComp
        { demoProps with modules := { toolbarFirstType := false, data := 1 } }).toOption.map
        (fun r => (r.1.state.generation,
                   r.2.count Effect.destroyedEditor,
                   r.2.count Effect.createdEditor)) =
      some (1, 1, 0) := by
  rfl

/-- C9: under a resolvable editing area, instantiating raises iff an instance
already exists, destroying raises iff none exists, accessing the handle
raises iff none exists, and `focus`/`blur` without an instance are silent
no-ops. -/
theorem c9_instance_contract (c : RQ) (a : AreaNode)
    (harea : c.editingArea = some a) (hfound : a.found = true)
    (htext : a.isTextNode = false) :
    (isError (instantiateEditor c) = true ↔ c.editor.isSome = true) ∧
    (isError (destroyEditor c) = true ↔ c.editor = none) ∧
    (isError (getEditor c) = true ↔ c.editor = none) ∧
    (c.editor = none → focus c = (c, []) ∧ blur c = (c, [])) := by
  refine ⟨?_, ?_, ?_, ?_⟩
  · rcases hc : c.editor with _ | e <;>
      simp [instantiateEditor, getEditingArea, isError, harea, hfound, htext, hc]
  · rcases hc : c.editor with _ | e <;> simp [destroyEditor, isError, hc]
  · rcases hc : c.editor with _ | e <;> simp [getEditor, isError, hc]
  · intro hc
    simp [focus, blur, hc]

/-- Witness for C9: on `bareComp` (no instance, resolvable area) instantiate
does not raise, destroy and handle access raise, focus and blur are no-ops. -/
theorem c9_instance_contract_witness :
    bareComp.editingArea = some { found := true, isTextNode := false } ∧
    ((isError (instantiateEditor bareComp) = true ↔ bareComp.editor.isSome = true) ∧
     (isError (destroyEditor bareComp) = true ↔ bareComp.editor = none) ∧
     (isError (getEditor bareComp) = true ↔ bareComp.editor = none) ∧
     (bareComp.editor = none →
        focus bareComp = (bareComp, []) ∧ blur bareComp = (bareComp, []))) :=
  ⟨rfl,
   c9_instance_contract bareComp { found := true, isTextNode := false } rfl rfl rfl⟩

/-- C10: with neither `value` nor `defaultValue` supplied the constructor
seeds the tracked value with `''`; the nullish coalescing used before the
push comparison turns an absent or nullish `value` into `''`; and no
post-commit pass ever pushes a nullish document into the instance. -/
theorem c10_nullish_value :
    (∀ p : Props, p.value? = none → p.defaultValue? = none →
       (construct p).state.value = .str "") ∧
    (coalesce none = .str "" ∧ coalesce (some .null) = .str "") ∧
    (∀ c prevProps prevState res,
       componentDidUpdate c prevProps prevState = .ok res →
       Effect.setContentsCall Val.null ∉ res.2.2) := by
  refine ⟨?_, ⟨rfl, rfl⟩, ?_⟩
  · intro p hv hd
    simp [construct, isControlled, hv, hd, coalesce]
  · intro c prevProps prevState res h hmem
    rcases hc : c.editor with _ | ed
    · simp [componentDidUpdate, hc] at h
      subst h
      simp at hmem
    · by_cases hr : shouldComponentRegenerate c.props prevProps = true <;>
      by_cases hg : (c.state.generation != prevState.generation) = true
      · rcases hga : getEditingArea c.editingArea with m | u <;>
          rcases hv : c.props.value? with _ | v <;>
          [skip; skip; skip;
           by_cases heq : isEqualValue (coalesce (some v)) prevState.value = true] <;>
          by_cases hro : (c.props.readOnly != prevProps.readOnly) = true <;>
          simp_all [componentDidUpdate, instantiateEditor, coalesce_ne_null] <;>
          (try subst h) <;> (try split at hmem) <;>
          (try simp_all [coalesce_ne_null]) <;>
          exact coalesce_ne_null _ hmem.symm
      · rcases hv : c.props.value? with _ | v <;>
          [skip; by_cases heq : isEqualValue (coalesce (some v)) prevState.value = true] <;>
          by_cases hro : (c.props.readOnly != prevProps.readOnly) = true <;>
          simp_all [componentDidUpdate, coalesce_ne_null] <;>
          (try subst h) <;> (try simp_all [coalesce_ne_null]) <;>
          exact coalesce_ne_null _ hmem.symm
      · rcases hs : c.regenerationSnapshot with _ | ⟨delta, sel⟩ <;>
          simp_all [componentDidUpdate, instantiateEditor]
      · rcases hv : c.props.value? with _ | v <;>
          [skip; by_cases heq : isEqualValue (coalesce (some v)) prevState.value = true] <;>
          by_cases hro : (c.props.readOnly != prevProps.readOnly) = true <;>
          simp_all [componentDidUpdate, coalesce_ne_null] <;>
          (try subst h) <;> (try simp_all [coalesce_ne_null]) <;>
          exact coalesce_ne_null _ hmem.symm

/-- Witness for C10: `seedlessProps` yields tracked value `''`; the coalesce
facts hold; the quiescent `demoComp` pass produces no effects, in particular
no nullish push. -/
theorem c10_nullish_value_witness :
    seedlessProps.value? = none ∧ seedlessProps.defaultValue? = none ∧
    (construct seedlessProps).state.value = .str "" ∧
    (coalesce none = .str "" ∧ coalesce (some .null) = .str "") ∧
    (componentDidUpdate demoComp demoProps demoComp.state = .ok (demoComp, none, []) ∧
     Effect.setContentsCall Val.null ∉
       ((demoComp, none, []) : RQ × Option Nat × List Effect).2.2) :=
  ⟨rfl, rfl,
   c10_nullish_value.1 seedlessProps rfl rfl,
   c10_nullish_value.2.1,
   by rfl,
   c10_nullish_value.2.2 demoComp demoProps demoComp.state (demoComp, none, []) (by rfl)⟩

end ReactQuill
